import Mathlib

/-!
Verification of the honk PTY watchdog core: the scanner
(`src/honk/watchdog/pty_scanner.py`), the safety classifier
(`src/honk/watchdog/safety.py`) and the daemon scan/kill/cache cycle
(`src/honk/watchdog/pty_daemon.py`), shallowly embedded in Lean.

Python integers are `Int`; `str` is `String`; `None`-able values are
`Option`; `dict[int, T]` is an insertion-ordered association list.
Every OS lookup the Python code performs through `psutil` / `os` is a
field of an explicit environment `OSEnv`, whose value records the
outcome of that lookup (including the "lookup raised" outcome that the
Python code catches).
-/

namespace Honk

/-- Model of Python `pat in s` (substring test) over character lists:
`beginsWith s pat` is true when `pat` is an initial segment of `s`. -/
def beginsWith : List Char → List Char → Bool
  | _, [] => true
  | [], _ :: _ => false
  | c :: cs, d :: ds => c == d && beginsWith cs ds

/-- `subListIn s pat` is true when `pat` occurs contiguously somewhere in `s`. -/
def subListIn (s pat : List Char) : Bool :=
  beginsWith s pat ||
    match s with
    | [] => false
    | _ :: cs => subListIn cs pat

/-- Python `pat in s` for strings. -/
def strContainsSub (s pat : String) : Bool :=
  subListIn s.data pat.data

/-- Python `s.startswith(pat)`. -/
def strBeginsWith (s pat : String) : Bool :=
  beginsWith s.data pat.data

/-- Python `s.lower()` (ASCII case folding, which is all the source's
command strings use). -/
def lowerStr (s : String) : String :=
  ⟨s.data.map Char.toLower⟩

/-- Python truthiness of an `str | None` value: `None` and `""` are falsy. -/
def pyTruthyStr : Option String → Bool
  | none => false
  | some s => !(s == "")

/-- Decimal digit value of a character, if it is one. -/
def decDigit? (c : Char) : Option Nat :=
  if 48 ≤ c.toNat ∧ c.toNat ≤ 57 then some (c.toNat - 48) else none

/-- Value of a non-empty all-digit character list; `none` otherwise. -/
def digitsValAux : Option Nat → List Char → Option Nat
  | acc, [] => acc
  | acc, c :: cs =>
    match acc, decDigit? c with
    | _, none => none
    | none, some d => digitsValAux (some d) cs
    | some a, some d => digitsValAux (some (a * 10 + d)) cs

def digitsVal (cs : List Char) : Option Nat :=
  digitsValAux none cs

/-- Python `int(s)` on the numeric fields of lsof output: `some n` when
the text is an optionally signed digit string, `none` when `int()` would
raise `ValueError`.  (Python also strips surrounding whitespace and
allows digit-group underscores; lsof fields never carry either.) -/
def pyInt? (s : String) : Option Int :=
  match s.data with
  | c :: rest =>
    if c = '-' then (digitsVal rest).map (fun n => -(n : Int))
    else if c = '+' then (digitsVal rest).map (fun n => (n : Int))
    else (digitsVal (c :: rest)).map (fun n => (n : Int))
  | [] => none

/-- `PTYProcess` from `pty_scanner.py`: one process snapshot.
`pty_count` is the derived property `len(self.ptys)`. -/
structure PTYProcess where
  pid : Int
  command : Option String
  ptys : List String
  parent_pid : Option Int := none
  deriving Repr, DecidableEq

def PTYProcess.pty_count (p : PTYProcess) : Nat :=
  p.ptys.length

/-- Python `dict[int, PTYProcess]` in insertion order. -/
abbrev ProcMap := List (Int × PTYProcess)

/-- `dict.values()` in insertion order. -/
def valuesOf (m : ProcMap) : List PTYProcess :=
  m.map Prod.snd

/-- Outcome of one `os.kill(pid, SIGTERM)` call, as distinguished by the
`except` clauses of `kill_processes`. -/
inductive KillOutcome where
  | delivered
  | noSuchProcess
  | permissionDenied
  deriving Repr, DecidableEq

/-- The OS state consulted by the classifier and the scanner.  Each field
records the outcome of the corresponding `psutil` / `os` lookup; `none`
at the outer `Option` means the lookup raised
(`NoSuchProcess` / `AccessDenied`), which each caller handles its own way. -/
structure OSEnv where
  /-- `os.getpid()` for the classifier's / daemon's own process. -/
  ownPid : Int
  /-- pids on `psutil.Process(os.getpid()).parents()`, root-most last;
  `none` when that walk raises. -/
  ancestors : Option (List Int)
  /-- `psutil.Process(pid).terminal()`: `none` = lookup raised,
  `some none` = no controlling terminal, `some (some t)` = terminal `t`. -/
  terminal : Int → Option (Option String)
  /-- `psutil.Process(pid).status()`; `none` = lookup raised. -/
  status : Int → Option String
  /-- `psutil.Process(pid).ppid()`; `none` = lookup raised. -/
  ppid : Int → Option Int
  /-- `(psutil.Process(pid).username(), psutil.Process(pid).name())`;
  `none` = lookup raised. -/
  procInfo : Int → Option (String × String)
  /-- `HAS_PSUTIL` flag of `pty_scanner.py`. -/
  hasPsutil : Bool
  /-- outcome of `os.kill(pid, SIGTERM)`. -/
  killOutcome : Int → KillOutcome

/-! ## safety.py -/

/-- `has_controlling_terminal` from `safety.py`: `terminal is not None`,
with the fail-safe `True` when the lookup raises. -/
def has_controlling_terminal (env : OSEnv) (pid : Int) : Bool :=
  match env.terminal pid with
  | none => true
  | some t => t.isSome

/-- `is_zombie` from `safety.py`: `status() == psutil.STATUS_ZOMBIE`,
`False` when the lookup raises. -/
def is_zombie (env : OSEnv) (pid : Int) : Bool :=
  match env.status pid with
  | none => false
  | some s => s == ("zombie")

/-- `is_orphan` from `safety.py`: `ppid() == 1`, `False` when the lookup
raises. -/
def is_orphan (env : OSEnv) (pid : Int) : Bool :=
  match env.ppid pid with
  | none => false
  | some p => p == 1

/-- `is_in_own_tree` from `safety.py`: own pid, or any pid on the own
ancestor chain; fail-safe `True` when the ancestor walk raises. -/
def is_in_own_tree (env : OSEnv) (pid : Int) : Bool :=
  if pid = env.ownPid then true
  else
    match env.ancestors with
    | none => true
    | some l => l.contains pid

/-- `CRITICAL_SYSTEM_PROCESSES` from `safety.py`. -/
def CRITICAL_SYSTEM_PROCESSES : List String :=
  [("launchd"), ("kernel_task"), ("com.apple.xpc.launchd"), ("syslogd"),
   ("notifyd"), ("diskarbitrationd"), ("configd"), ("mDNSResponder"),
   ("SecurityServer"), ("WindowServer"), ("loginwindow"), ("systemstats"),
   ("UserEventAgent")]

/-- `is_system_critical` from `safety.py`: pid below 100, or root-owned
with a name on the critical list; fail-safe `True` when the lookup raises. -/
def is_system_critical (env : OSEnv) (pid : Int) : Bool :=
  if pid < 100 then true
  else
    match env.procInfo pid with
    | none => true
    | some info =>
        info.1 == ("root") && CRITICAL_SYSTEM_PROCESSES.contains (lowerStr info.2)

/-- `is_safe_to_kill` from `safety.py`: the ordered safety waterfall.
Returns `(safe, reason)` exactly as the source builds them. -/
def is_safe_to_kill (env : OSEnv) (pid : Int) (proc : PTYProcess) (threshold : Int) :
    Bool × String :=
  if pid = env.ownPid then
    (false, ("Cannot kill own process"))
  else if is_in_own_tree env pid then
    (false, ("Process is in our ancestor chain (would kill ourselves)"))
  else if has_controlling_terminal env pid then
    (false, ("Has active controlling terminal (active user session)"))
  else if is_system_critical env pid then
    (false, ("Critical system process"))
  else if is_zombie env pid then
    (true, ("Zombie process (needs reaping)"))
  else if is_orphan env pid ∧ proc.pty_count > 1 then
    (true, ("Orphan process with ") ++ toString proc.pty_count ++ (" PTYs (leak)"))
  else
    let cmd := lowerStr (proc.command.getD (""))
    if strContainsSub cmd ("copilot") then
      if (proc.pty_count : Int) > 10 then
        (true, ("Copilot process with excessive PTYs (") ++ toString proc.pty_count ++ ("/10)"))
      else
        (false, ("Copilot process within normal range (") ++ toString proc.pty_count ++ ("/10 PTYs)"))
    else if (proc.pty_count : Int) > threshold * 2 then
      (true, ("Heavy PTY user (") ++ toString proc.pty_count ++ (" PTYs, threshold ")
        ++ toString (threshold * 2) ++ (")"))
    else
      (false, ("Below threshold (") ++ toString proc.pty_count ++ ("/")
        ++ toString (threshold * 2) ++ (" PTYs)"))

/-! ## pty_scanner.py: classification, queries, kill -/

/-- The inline psutil terminal check of `is_leak_candidate`: Python
`if p.terminal():` — truthiness of the terminal value; a raised lookup
falls through (returns false here) rather than protecting. -/
def leakTerminalBlocks (env : OSEnv) (pid : Int) : Bool :=
  match env.terminal pid with
  | none => false
  | some t => pyTruthyStr t

/-- `is_leak_candidate` from `pty_scanner.py`.  Thresholds: ×5 for
commands containing "copilot" (the two following branches are subsumed,
kept as in the source), ×3 for everything else. -/
def is_leak_candidate (env : OSEnv) (proc : PTYProcess) (threshold : Int) : Bool :=
  if !(pyTruthyStr proc.command) then false
  else if env.hasPsutil && leakTerminalBlocks env proc.pid then false
  else
    let cmd := lowerStr (proc.command.getD (""))
    if strContainsSub cmd ("copilot") then
      (proc.pty_count : Int) > threshold * 5
    else if strContainsSub cmd ("node") && strContainsSub cmd ("copilot") then
      (proc.pty_count : Int) > threshold * 5
    else if strContainsSub cmd ("agent") && strContainsSub cmd ("copilot") then
      (proc.pty_count : Int) > threshold * 5
    else
      (proc.pty_count : Int) > threshold * 3

/-- `get_heavy_users` from `pty_scanner.py`: strictly more than
`threshold` PTYs. -/
def get_heavy_users (m : ProcMap) (threshold : Int) : List PTYProcess :=
  (valuesOf m).filter (fun p => (p.pty_count : Int) > threshold)

/-- `get_suspected_leaks` from `pty_scanner.py`: filters through
`is_leak_candidate`. -/
def get_suspected_leaks (env : OSEnv) (m : ProcMap) (threshold : Int) : List PTYProcess :=
  (valuesOf m).filter (fun p => is_leak_candidate env p threshold)

/-- Python `results[pid] = v` on a `dict`: replace in place if the key is
present, else append. -/
def dictInsert (m : List (Int × Bool)) (k : Int) (v : Bool) : List (Int × Bool) :=
  if m.any (fun kv => kv.1 == k) then
    m.map (fun kv => if kv.1 == k then (k, v) else kv)
  else
    m ++ [(k, v)]

/-- Python `results.get(pid)`. -/
def dictGet (m : List (Int × Bool)) (k : Int) : Option Bool :=
  (m.find? (fun kv => kv.1 == k)).map Prod.snd

/-- The boolean `kill_processes` stores for one pid: `True` on delivery,
`False` on `ProcessLookupError` or `PermissionError`. -/
def killBool (env : OSEnv) (pid : Int) : Bool :=
  match env.killOutcome pid with
  | .delivered => true
  | .noSuchProcess => false
  | .permissionDenied => false

/-- `kill_processes` from `pty_scanner.py`: one independent
`os.kill(pid, SIGTERM)` per pid, each exception absorbed into a `False`
entry; never raises. -/
def kill_processes (env : OSEnv) (pids : List Int) : List (Int × Bool) :=
  pids.foldl (fun results pid => dictInsert results pid (killBool env pid)) []

/-! ## pty_daemon.py: one `_scan_and_cache` iteration -/

/-- The auto-kill pass of `PTYDaemon._scan_and_cache`: when the threshold
is positive, every suspected leak (computed at the hard-coded base
threshold 4) holding at least `autoKillThreshold` PTYs is signalled, and
its pid recorded iff `kill_processes` reported delivery. -/
def daemonAutoKilled (env : OSEnv) (procs : ProcMap) (autoKillThreshold : Int) : List Int :=
  if autoKillThreshold > 0 then
    (get_suspected_leaks env procs 4).foldl
      (fun killed p =>
        if (p.pty_count : Int) ≥ autoKillThreshold then
          match dictGet (kill_processes env [p.pid]) p.pid with
          | some true => killed ++ [p.pid]
          | _ => killed
        else killed)
      []
  else []

/-- The cache payload `_scan_and_cache` assembles (the fields the claims
are about; `timestamp` is wall-clock and the per-process projections are
direct copies). -/
structure CacheData where
  scan_number : Nat
  total_ptys : Nat
  process_count : Nat
  heavy_users : List PTYProcess
  suspected_leaks : List PTYProcess
  auto_killed : List Int
  deriving Repr, DecidableEq

/-- The pure computation of one `_scan_and_cache` iteration, from the
scan result to the cache payload.  Base threshold 4 is hard-coded in the
source. -/
def buildCacheData (env : OSEnv) (procs : ProcMap) (scanNumber : Nat)
    (autoKillThreshold : Int) : CacheData :=
  { scan_number := scanNumber
    total_ptys := (valuesOf procs).foldl (fun acc p => acc + p.pty_count) 0
    process_count := procs.length
    heavy_users := get_heavy_users procs 4
    suspected_leaks := get_suspected_leaks env procs 4
    auto_killed := daemonAutoKilled env procs autoKillThreshold }

/-! ## pty_scanner.py: run_lsof / parse_lsof_output / scan_ptys -/

/-- The environment one `scan()` call sees: the glob of `/dev/ttys*`
devices, whether the `lsof` binary exists, and — when it runs — its exit
status and stdout.  `subprocess.run` (without `check=True`) hands back
stdout whatever the exit status, so `lsofExit` is consciously ignored by
`run_lsof`. -/
structure ScanEnv where
  ptyDevices : List String
  lsofAvailable : Bool
  lsofExit : Int
  lsofStdout : String
  deriving Repr, DecidableEq

/-- `run_lsof` from `pty_scanner.py`: empty string without invoking the
tool when no PTY devices exist; `RuntimeError` only when the binary is
missing; otherwise whatever stdout the tool produced, regardless of its
exit status. -/
def run_lsof (env : ScanEnv) : Except String String :=
  if env.ptyDevices.isEmpty then
    .ok ("")
  else if env.lsofAvailable then
    .ok env.lsofStdout
  else
    .error ("lsof not found - install it via Homebrew or system package manager")

/-- Mutable state of the `parse_lsof_output` loop. -/
structure ParseState where
  processes : ProcMap
  currentPid : Option Int

/-- Python `pid in processes` on the dict. -/
def procMapContains (m : ProcMap) (k : Int) : Bool :=
  m.any (fun kv => kv.1 == k)

/-- In-place mutation of one dict entry. -/
def procMapModify (m : ProcMap) (k : Int) (f : PTYProcess → PTYProcess) : ProcMap :=
  m.map (fun kv => if kv.1 == k then (k, f kv.2) else kv)

/-- Python truthiness of `current_pid` (`None` and `0` are falsy). -/
def pyTruthyPid : Option Int → Bool
  | none => false
  | some p => !(p == 0)

/-- One iteration of the `parse_lsof_output` loop, for one line.
`p` opens a record (a malformed pid field raises `ValueError`),
`R`/`c`/`n/dev/ttys` attach to the open record, anything else is
ignored. -/
def parseLine (st : ParseState) (line : String) : Except String ParseState :=
  if strBeginsWith line ("p") then
    match pyInt? ⟨line.data.drop 1⟩ with
    | none => .error ("invalid literal for int() with base 10")
    | some pid =>
      let m :=
        if procMapContains st.processes pid then st.processes
        else st.processes ++
          [(pid, { pid := pid, command := none, ptys := [], parent_pid := none })]
      .ok { processes := m, currentPid := some pid }
  else if strBeginsWith line ("R") then
    if pyTruthyPid st.currentPid && procMapContains st.processes (st.currentPid.getD 0) then
      match pyInt? ⟨line.data.drop 1⟩ with
      | none => .error ("invalid literal for int() with base 10")
      | some pp =>
        .ok { st with processes :=
          (procMapModify st.processes (st.currentPid.getD 0)
            (fun p => { p with parent_pid := some pp })) }
    else .ok st
  else if strBeginsWith line ("c") then
    if pyTruthyPid st.currentPid && procMapContains st.processes (st.currentPid.getD 0) then
      .ok { st with processes :=
        (procMapModify st.processes (st.currentPid.getD 0)
          (fun p => { p with command := some ⟨line.data.drop 1⟩ })) }
    else .ok st
  else if strBeginsWith line ("n/dev/ttys") then
    if pyTruthyPid st.currentPid && procMapContains st.processes (st.currentPid.getD 0) then
      .ok { st with processes :=
        (procMapModify st.processes (st.currentPid.getD 0)
          (fun p => { p with ptys := p.ptys ++ [⟨line.data.drop 1⟩] })) }
    else .ok st
  else
    .ok st

/-- Newline splitting for `str.splitlines()` (the tool's output is
newline-separated; the parser ignores the empty trailing segment this
produces where Python drops it). -/
def splitNl : List Char → List Char → List String
  | acc, [] => [⟨acc⟩]
  | acc, c :: cs =>
    if c = '\n' then ⟨acc⟩ :: splitNl [] cs else splitNl (acc ++ [c]) cs

def pySplitlines (s : String) : List String :=
  if s = ("") then [] else splitNl [] s.data

/-- `parse_lsof_output` from `pty_scanner.py`. -/
def parse_lsof_output (output : String) : Except String ProcMap :=
  ((pySplitlines output).foldlM parseLine { processes := [], currentPid := none }).map
    (fun st => st.processes)

/-- `scan_ptys` from `pty_scanner.py`: run the tool, parse its stdout. -/
def scan_ptys (env : ScanEnv) : Except String ProcMap :=
  match run_lsof env with
  | .error e => .error e
  | .ok out => parse_lsof_output out

/-! ## pty_daemon.py: the atomic cache write

`_scan_and_cache` ends with `temp_file.write_text(...)` followed by
`temp_file.rename(cache_file)`, the whole iteration wrapped in
`except Exception` (the loop always continues).  The file system as the
readers of the cache can observe it is the pair of the cache file's and
the temp file's contents; the iteration's tail is the two-operation
program below, run under a fault that may strike before any single
operation takes effect. -/

structure CacheFS where
  cache : Option String
  temp : Option String
  deriving Repr, DecidableEq

inductive CacheOp where
  | writeTemp (s : String)
  | renameTempToCache
  deriving Repr, DecidableEq

def applyCacheOp (fs : CacheFS) : CacheOp → CacheFS
  | .writeTemp s => { fs with temp := some s }
  | .renameTempToCache =>
    match fs.temp with
    | none => fs
    | some s => { cache := some s, temp := none }

/-- The operations `_scan_and_cache` issues once the payload is
serialized. -/
def cacheWriteOps (payload : String) : List CacheOp :=
  [.writeTemp payload, .renameTempToCache]

/-- Run a list of file operations under an optional fault: `some k`
means the `k`-th operation raises before taking effect, the remaining
operations are skipped, and the exception is absorbed by the iteration's
`except Exception` handler (`some 0` also covers a failure while still
serializing, before the first operation).  `none` is the fault-free run. -/
def runCacheOps : CacheFS → List CacheOp → Option Nat → CacheFS
  | fs, [], _ => fs
  | fs, _ :: _, some 0 => fs
  | fs, op :: ops, some (k + 1) => runCacheOps (applyCacheOp fs op) ops (some k)
  | fs, op :: ops, none => runCacheOps (applyCacheOp fs op) ops none

/-! ## Concrete instances used by counterexamples and witnesses -/

/-- An OS state in which every foreign pid resolves cleanly and none of
the layer-1 / layer-2 checks of the waterfall fires: the classifier's own
pid is 1000 with ancestors 900 and 1; every queried process exists, has
no controlling terminal, is a running non-root user process with a
non-critical name, and is parented by 777. -/
def envOpen : OSEnv :=
  { ownPid := 1000
    ancestors := some [900, 1]
    terminal := fun _ => some none
    status := fun _ => some ("running")
    ppid := fun _ => some 777
    procInfo := fun _ => some (("user"), ("bash"))
    hasPsutil := true
    killOutcome := fun _ => .delivered }

/-- The daemon's own OS state: pid 500, detached (no controlling
terminal anywhere), every SIGTERM delivered — including the one it can
send to itself. -/
def envDaemon : OSEnv :=
  { ownPid := 500
    ancestors := some [450, 1]
    terminal := fun _ => some none
    status := fun _ => some ("running")
    ppid := fun _ => some 1
    procInfo := fun _ => some (("user"), ("python3"))
    hasPsutil := true
    killOutcome := fun _ => .delivered }

/-- An OS state in which every pid is already gone: `os.kill` raises
`ProcessLookupError` everywhere. -/
def envDead : OSEnv :=
  { envOpen with killOutcome := fun _ => .noSuchProcess }

/-- The daemon's own snapshot as the scanner would report it: 13 PTYs,
a non-agent python command, reparented to init. -/
def daemonProc : PTYProcess :=
  { pid := 500
    command := some ("python3 -m honk.watchdog.pty_daemon")
    ptys := (List.range 13).map (fun i => ("/dev/ttys") ++ toString i)
    parent_pid := some 1 }

/-- A copilot snapshot holding 15 PTYs. -/
def copilot15 : PTYProcess :=
  { pid := 600
    command := some ("node copilot")
    ptys := (List.range 15).map (fun i => ("/dev/ttys") ++ toString i)
    parent_pid := some 777 }

/-- The same copilot snapshot holding 21 PTYs. -/
def copilot21 : PTYProcess :=
  { pid := 600
    command := some ("node copilot")
    ptys := (List.range 21).map (fun i => ("/dev/ttys") ++ toString i)
    parent_pid := some 777 }

/-- A copilot snapshot holding 9 PTYs. -/
def copilot9 : PTYProcess :=
  { pid := 600
    command := some ("node copilot")
    ptys := (List.range 9).map (fun i => ("/dev/ttys") ++ toString i)
    parent_pid := some 777 }

/-- A non-agent snapshot holding 10 PTYs. -/
def bash10 : PTYProcess :=
  { pid := 200
    command := some ("bash")
    ptys := (List.range 10).map (fun i => ("/dev/ttys") ++ toString i)
    parent_pid := some 777 }

/-- The same non-agent snapshot holding 13 PTYs. -/
def bash13 : PTYProcess :=
  { pid := 200
    command := some ("bash")
    ptys := (List.range 13).map (fun i => ("/dev/ttys") ++ toString i)
    parent_pid := some 777 }

/-- A snapshot whose command the OS tool did not report. -/
def noCmdProc : PTYProcess :=
  { pid := 900
    command := none
    ptys := (List.range 30).map (fun i => ("/dev/ttys") ++ toString i)
    parent_pid := some 1 }

/-- A scan environment with no `/dev/ttys*` devices and no lsof binary. -/
def envScanNoDev : ScanEnv :=
  { ptyDevices := [], lsofAvailable := false, lsofExit := 1, lsofStdout := ("") }

/-! ## Helper lemmas -/

theorem beginsWith_append (s t pat : List Char) (h : beginsWith s pat = true) :
    beginsWith (s ++ t) pat = true := by
  induction pat generalizing s with
  | nil => simp [beginsWith]
  | cons d ds ih =>
    cases s with
    | nil => simp [beginsWith] at h
    | cons c cs =>
      simp only [beginsWith, Bool.and_eq_true] at h
      simp only [List.cons_append, beginsWith, Bool.and_eq_true]
      exact ⟨h.1, ih cs h.2⟩

theorem subListIn_append (s t pat : List Char) (h : subListIn s pat = true) :
    subListIn (s ++ t) pat = true := by
  induction s with
  | nil =>
    cases pat with
    | nil => cases t <;> simp [subListIn, beginsWith]
    | cons d ds => simp [subListIn, beginsWith] at h
  | cons c cs ih =>
    rw [subListIn, Bool.or_eq_true] at h
    rw [List.cons_append, subListIn, Bool.or_eq_true]
    rcases h with h | h
    · exact Or.inl (beginsWith_append _ _ _ h)
    · exact Or.inr (ih h)

theorem strContainsSub_append (a b pat : String) (h : strContainsSub a pat = true) :
    strContainsSub (a ++ b) pat = true := by
  rw [strContainsSub, String.data_append]
  exact subListIn_append _ _ _ h

theorem find?_cons_true {α : Type} (p : α → Bool) (a : α) (l : List α) (h : p a = true) :
    List.find? p (a :: l) = some a :=
  List.find?_cons_of_pos l h

theorem find?_cons_false {α : Type} (p : α → Bool) (a : α) (l : List α) (h : p a = false) :
    List.find? p (a :: l) = List.find? p l :=
  List.find?_cons_of_neg l (by simp [h])

theorem find?_map_replace (m : List (Int × Bool)) (k : Int) (v : Bool)
    (h : m.any (fun kv => kv.1 == k) = true) :
    (m.map (fun kv => if kv.1 == k then (k, v) else kv)).find? (fun kv => kv.1 == k)
      = some (k, v) := by
  induction m with
  | nil => simp at h
  | cons a t ih =>
    by_cases hk : (a.1 == k) = true
    · simp only [List.map_cons, if_pos hk]
      exact find?_cons_true _ _ _ (by simp)
    · have hkf : (a.1 == k) = false := by simpa using hk
      have ht : t.any (fun kv => kv.1 == k) = true := by
        rw [List.any_cons, Bool.or_eq_true] at h
        exact h.resolve_left hk
      simp only [List.map_cons, if_neg hk]
      rw [find?_cons_false (fun kv => kv.1 == k) a _ hkf]
      exact ih ht

theorem find?_map_replace_ne (m : List (Int × Bool)) (k : Int) (v : Bool) (q : Int)
    (h : ¬ q = k) :
    (m.map (fun kv => if kv.1 == k then (k, v) else kv)).find? (fun kv => kv.1 == q)
      = m.find? (fun kv => kv.1 == q) := by
  induction m with
  | nil => simp
  | cons a t ih =>
    by_cases hk : (a.1 == k) = true
    · have hak : a.1 = k := beq_iff_eq.mp hk
      have haq : (a.1 == q) = false := by simp [hak]; omega
      have hkq : ((k, v).1 == q) = false := by simp; omega
      simp only [List.map_cons, if_pos hk]
      rw [find?_cons_false (fun kv => kv.1 == q) (k, v) _ hkq,
          find?_cons_false (fun kv => kv.1 == q) a _ haq]
      exact ih
    · simp only [List.map_cons, if_neg hk]
      by_cases haq : (a.1 == q) = true
      · rw [find?_cons_true (fun kv => kv.1 == q) a _ haq,
            find?_cons_true (fun kv => kv.1 == q) a _ haq]
      · have haqf : (a.1 == q) = false := by simpa using haq
        rw [find?_cons_false (fun kv => kv.1 == q) a _ haqf,
            find?_cons_false (fun kv => kv.1 == q) a _ haqf]
        exact ih

theorem dictGet_dictInsert_self (m : List (Int × Bool)) (k : Int) (v : Bool) :
    dictGet (dictInsert m k v) k = some v := by
  unfold dictGet dictInsert
  by_cases h : m.any (fun kv => kv.1 == k) = true
  · rw [if_pos h, find?_map_replace m k v h]
    rfl
  · rw [if_neg h, List.find?_append]
    have hnone : m.find? (fun kv => kv.1 == k) = none := by
      rw [List.find?_eq_none]
      intro x hx hpx
      exact h (List.any_eq_true.mpr ⟨x, hx, hpx⟩)
    rw [hnone, find?_cons_true (fun kv => kv.1 == k) (k, v) [] (by simp)]
    rfl

theorem dictGet_dictInsert_ne (m : List (Int × Bool)) (k : Int) (v : Bool) (q : Int)
    (h : ¬ q = k) :
    dictGet (dictInsert m k v) q = dictGet m q := by
  unfold dictGet dictInsert
  by_cases hm : m.any (fun kv => kv.1 == k) = true
  · rw [if_pos hm, find?_map_replace_ne m k v q h]
  · rw [if_neg hm, List.find?_append]
    have hkq : ((k, v).1 == q) = false := by simp; omega
    rw [find?_cons_false (fun kv => kv.1 == q) (k, v) [] hkq]
    cases hfind : m.find? (fun kv => kv.1 == q) with
    | some x => rfl
    | none => rfl

theorem dictGet_kill_foldl (env : OSEnv) (pids : List Int) (acc : List (Int × Bool))
    (pid : Int) :
    dictGet (pids.foldl (fun results q => dictInsert results q (killBool env q)) acc) pid
      = if pid ∈ pids then some (killBool env pid) else dictGet acc pid := by
  induction pids generalizing acc with
  | nil => simp
  | cons q qs ih =>
    rw [List.foldl_cons, ih]
    by_cases hqs : pid ∈ qs
    · rw [if_pos hqs, if_pos (List.mem_cons_of_mem q hqs)]
    · rw [if_neg hqs]
      by_cases he : pid = q
      · subst he
        rw [dictGet_dictInsert_self, if_pos (List.mem_cons_self pid qs)]
      · rw [dictGet_dictInsert_ne _ _ _ _ he, if_neg (by simp [he, hqs])]

theorem leak_candidate_command (env : OSEnv) (p : PTYProcess) (th : Int)
    (h : is_leak_candidate env p th = true) : ¬ p.command = none := by
  intro hc
  rw [is_leak_candidate, hc] at h
  simp [pyTruthyStr] at h

theorem mem_autoKillFold (env : OSEnv) (akt : Int) (l : List PTYProcess)
    (acc : List Int) (q : Int)
    (h : q ∈ l.foldl
      (fun killed p =>
        if (p.pty_count : Int) ≥ akt then
          match dictGet (kill_processes env [p.pid]) p.pid with
          | some true => killed ++ [p.pid]
          | _ => killed
        else killed) acc) :
    q ∈ acc ∨ ∃ p, p ∈ l ∧ p.pid = q := by
  induction l generalizing acc with
  | nil => exact Or.inl h
  | cons a t ih =>
    rw [List.foldl_cons] at h
    rcases ih _ h with hacc | ⟨p, hp, hq⟩
    · by_cases hge : (a.pty_count : Int) ≥ akt
      · rw [if_pos hge] at hacc
        cases hd : dictGet (kill_processes env [a.pid]) a.pid with
        | none => rw [hd] at hacc; exact Or.inl hacc
        | some b =>
          cases b with
          | false => rw [hd] at hacc; exact Or.inl hacc
          | true =>
            rw [hd] at hacc
            rcases List.mem_append.mp hacc with h1 | h2
            · exact Or.inl h1
            · exact Or.inr ⟨a, List.mem_cons_self a t, (List.mem_singleton.mp h2).symm⟩
      · rw [if_neg hge] at hacc
        exact Or.inl hacc
    · exact Or.inr ⟨p, List.mem_cons_of_mem a hp, hq⟩

/-! ## Claim theorems -/

/-- C1, counterexample: at base threshold 4 the claim's cutoff would be
5 × 4 = 20, so a copilot snapshot holding 15 PTYs (all layer-1/2 checks
open) should get safe=false; the classifier instead returns safe=true,
because its copilot cutoff is the fixed constant 10. -/
theorem C1_counterexample_copilot_15_at_threshold_4 :
    (is_safe_to_kill envOpen 600 copilot15 4).1 = true ∧
    ¬ ((copilot15.pty_count : Int) > 4 * 5) := by
  decide

/-- C1 (amended): whenever the layer-1 and layer-2 checks leave the
decision open and the lower-cased command contains "copilot",
`is_safe_to_kill` returns safe=true exactly when `pty_count` exceeds the
fixed cutoff 10 — independent of the base threshold — and at or below 10
it returns safe=false with the agent-specific "within normal range"
reason. -/
theorem C1_copilot_fixed_cutoff (env : OSEnv) (pid : Int) (proc : PTYProcess)
    (threshold : Int)
    (h1 : ¬ pid = env.ownPid)
    (h2 : is_in_own_tree env pid = false)
    (h3 : has_controlling_terminal env pid = false)
    (h4 : is_system_critical env pid = false)
    (h5 : is_zombie env pid = false)
    (h6 : ¬ (is_orphan env pid = true ∧ proc.pty_count > 1))
    (h7 : strContainsSub (lowerStr (proc.command.getD (""))) ("copilot") = true) :
    (is_safe_to_kill env pid proc threshold).1 = decide ((proc.pty_count : Int) > 10) ∧
    ((proc.pty_count : Int) ≤ 10 →
      strContainsSub (is_safe_to_kill env pid proc threshold).2
        ("within normal range") = true) := by
  unfold is_safe_to_kill
  rw [if_neg h1, if_neg (by simp [h2]), if_neg (by simp [h3]), if_neg (by simp [h4]),
      if_neg (by simp [h5]), if_neg h6]
  simp only [h7, if_true]
  by_cases hc : (proc.pty_count : Int) > 10
  · rw [if_pos hc]
    exact ⟨by simp [hc], fun hle => absurd hc (by omega)⟩
  · rw [if_neg hc]
    refine ⟨by simp [hc], fun _ => ?_⟩
    exact strContainsSub_append _ _ _
      (strContainsSub_append _ _ _ (by decide))

/-- C1 witness: a copilot snapshot with 9 PTYs, all layer-1/2 checks
open, at base threshold 7: safe=false (9 is not above 10) with the
"within normal range" reason. -/
theorem C1_copilot_fixed_cutoff_witness :
    (is_safe_to_kill envOpen 600 copilot9 7).1 = decide ((copilot9.pty_count : Int) > 10) ∧
    ((copilot9.pty_count : Int) ≤ 10 →
      strContainsSub (is_safe_to_kill envOpen 600 copilot9 7).2
        ("within normal range") = true) :=
  C1_copilot_fixed_cutoff envOpen 600 copilot9 7 (by decide) (by decide) (by decide)
    (by decide) (by decide) (by decide) (by decide)

/-- C2: the daemon CAN record its own pid in `auto_killed`.  When the
scan reports the daemon's own snapshot (pid 500, a non-agent python
command, 13 PTYs, no controlling terminal — the daemon is detached), the
auto-kill pass classifies it a suspected leak (13 > 3 × 4), delivers
SIGTERM to itself (the handler only sets a flag, so the iteration
completes), and writes 500 into the cache's `auto_killed`.  The own-pid
protection lives only in `safety.is_safe_to_kill`, which the daemon
never consults. -/
theorem C2_daemon_can_auto_kill_itself :
    envDaemon.ownPid = 500 ∧
    (buildCacheData envDaemon [(500, daemonProc)] 1 1).auto_killed = [500] := by
  constructor
  · rfl
  · decide

/-- C3: `get_suspected_leaks` does not agree with the Safety Classifier.
Under one and the same OS state (no controlling terminal, process alive,
non-critical, not zombie, not orphan, outside the caller's tree), a
non-agent snapshot with 10 PTYs at threshold 4 gets safe=true from
`is_safe_to_kill` (10 > 2 × 4) yet is absent from `get_suspected_leaks`,
which consults `is_leak_candidate` (10 ≤ 3 × 4) and never calls the
classifier. -/
theorem C3_scanner_ignores_classifier :
    (is_safe_to_kill envOpen 200 bash10 4).1 = true ∧
    get_suspected_leaks envOpen [(200, bash10)] 4 = [] := by
  constructor
  · decide
  · decide

/-- C4: a queried pid equal to the classifier's own pid, or appearing in
the classifier's own ancestor chain, is never safe to kill, and the
reason is the corresponding protective one. -/
theorem C4_own_pid_and_ancestors_protected (env : OSEnv) (pid : Int)
    (proc : PTYProcess) (threshold : Int)
    (h : pid = env.ownPid ∨ ∃ l, env.ancestors = some l ∧ pid ∈ l) :
    (is_safe_to_kill env pid proc threshold).1 = false ∧
    ((is_safe_to_kill env pid proc threshold).2 = ("Cannot kill own process") ∨
     (is_safe_to_kill env pid proc threshold).2 =
       ("Process is in our ancestor chain (would kill ourselves)")) := by
  have hsplit : pid = env.ownPid ∨
      (¬ pid = env.ownPid ∧ is_in_own_tree env pid = true) := by
    rcases h with h | ⟨l, hl, hm⟩
    · exact Or.inl h
    · by_cases hown : pid = env.ownPid
      · exact Or.inl hown
      · refine Or.inr ⟨hown, ?_⟩
        unfold is_in_own_tree
        rw [if_neg hown, hl]
        exact List.elem_eq_true_of_mem hm
  rcases hsplit with hown | ⟨hown, htree⟩
  · unfold is_safe_to_kill
    rw [if_pos hown]
    exact ⟨rfl, Or.inl rfl⟩
  · unfold is_safe_to_kill
    rw [if_neg hown, if_pos htree]
    exact ⟨rfl, Or.inr rfl⟩

/-- C4 witness: pid 900 sits on `envOpen`'s ancestor chain, and pid 1000
is `envOpen`'s own pid; both are refused. -/
theorem C4_own_pid_and_ancestors_protected_witness :
    (is_safe_to_kill envOpen 900 bash10 4).1 = false ∧
    ((is_safe_to_kill envOpen 900 bash10 4).2 = ("Cannot kill own process") ∨
     (is_safe_to_kill envOpen 900 bash10 4).2 =
       ("Process is in our ancestor chain (would kill ourselves)")) :=
  C4_own_pid_and_ancestors_protected envOpen 900 bash10 4
    (Or.inr ⟨[900, 1], rfl, by decide⟩)

/-- C5: at base threshold 4 (copilot cutoff 4 × 5 = 20), a copilot
snapshot without a controlling terminal is not a suspected leak with 15
PTYs, and is one with 21 PTYs. -/
theorem C5_copilot_15_vs_21 :
    copilot15 ∉ get_suspected_leaks envOpen [(600, copilot15)] 4 ∧
    copilot21 ∈ get_suspected_leaks envOpen [(600, copilot21)] 4 := by
  constructor
  · decide
  · decide

/-- C6, counterexample: the claim says the 10-PTY non-agent snapshot is
returned by neither query at base threshold 4, but `get_heavy_users`
uses the cutoff `pty_count > threshold` (not the ×3 multiple), so 10 > 4
makes it a heavy user. -/
theorem C6_counterexample_10_ptys_is_heavy_user :
    bash10 ∈ get_heavy_users [(200, bash10)] 4 := by
  decide

/-- C6 (amended): at base threshold 4 a non-agent snapshot with 13 PTYs
is both a heavy user and a suspected leak (13 > 3 × 4); with 10 PTYs it
is not a suspected leak (10 ≤ 12) but is still a heavy user, because
`get_heavy_users` compares against the base threshold itself (10 > 4). -/
theorem C6_scenario_b_amended :
    bash13 ∈ get_heavy_users [(200, bash13)] 4 ∧
    bash13 ∈ get_suspected_leaks envOpen [(200, bash13)] 4 ∧
    bash10 ∉ get_suspected_leaks envOpen [(200, bash10)] 4 ∧
    bash10 ∈ get_heavy_users [(200, bash10)] 4 := by
  refine ⟨by decide, by decide, by decide, by decide⟩

/-- C7: the cache write is atomic.  A fault striking before the rename
(before the temp write, `k = 0`, also covering serialization; or before
the rename itself, `k = 1`) leaves the cache file's contents unchanged,
the fault-free run installs exactly the new payload, and under every
fault the cache holds either the old contents or the full new payload —
never anything else.  The run function is total: every faulted iteration
yields a defined state from which the daemon's loop continues. -/
theorem C7_cache_write_atomic (fs : CacheFS) (payload : String) (k : Nat)
    (hk : k ≤ 1) :
    (runCacheOps fs (cacheWriteOps payload) (some k)).cache = fs.cache ∧
    (runCacheOps fs (cacheWriteOps payload) none).cache = some payload ∧
    (∀ fault : Option Nat,
      (runCacheOps fs (cacheWriteOps payload) fault).cache = fs.cache ∨
      (runCacheOps fs (cacheWriteOps payload) fault).cache = some payload) := by
  refine ⟨?_, rfl, ?_⟩
  · match k with
    | 0 => rfl
    | 1 => rfl
    | n + 2 => exact absurd hk (by omega)
  · intro fault
    match fault with
    | none => exact Or.inr rfl
    | some 0 => exact Or.inl rfl
    | some 1 => exact Or.inl rfl
    | some (n + 2) => exact Or.inr rfl

/-- C7 witness: a fault before the temp write leaves the old cache
contents in place. -/
theorem C7_cache_write_atomic_witness :
    (runCacheOps { cache := some ("old"), temp := none } (cacheWriteOps ("new"))
      (some 0)).cache = some ("old") ∧
    (runCacheOps { cache := some ("old"), temp := none } (cacheWriteOps ("new"))
      none).cache = some ("new") ∧
    (∀ fault : Option Nat,
      (runCacheOps { cache := some ("old"), temp := none } (cacheWriteOps ("new"))
        fault).cache = some ("old") ∨
      (runCacheOps { cache := some ("old"), temp := none } (cacheWriteOps ("new"))
        fault).cache = some ("new")) :=
  C7_cache_write_atomic { cache := some ("old"), temp := none } ("new") 0 (by decide)

/-- C8: `kill_processes` maps every requested pid to its own outcome —
true exactly when the signal was delivered, false when the process was
gone or permission was denied — independently of every other pid's
outcome; and on an already-dead pid the call (repeated any number of
times under the unchanged OS state) returns false.  The function is a
total Lean function over every outcome environment: no outcome raises. -/
theorem C8_kill_processes_outcomes (env : OSEnv) (pids : List Int) (pid : Int)
    (h : pid ∈ pids) :
    dictGet (kill_processes env pids) pid = some (killBool env pid) ∧
    (env.killOutcome pid = KillOutcome.noSuchProcess →
      kill_processes env [pid] = [(pid, false)] ∧
      dictGet (kill_processes env pids) pid = some false) := by
  have hget : dictGet (kill_processes env pids) pid = some (killBool env pid) := by
    unfold kill_processes
    rw [dictGet_kill_foldl, if_pos h]
  refine ⟨hget, fun hdead => ⟨?_, ?_⟩⟩
  · unfold kill_processes killBool
    simp only [List.foldl_cons, List.foldl_nil]
    rw [hdead]
    rfl
  · rw [hget]
    unfold killBool
    rw [hdead]

/-- C8 witness: with every process already gone, killing pids 41 and 42
records false for 42, and the single-pid call returns exactly
`[(42, false)]`. -/
theorem C8_kill_processes_outcomes_witness :
    dictGet (kill_processes envDead [41, 42]) 42 = some (killBool envDead 42) ∧
    (envDead.killOutcome 42 = KillOutcome.noSuchProcess →
      kill_processes envDead [42] = [(42, false)] ∧
      dictGet (kill_processes envDead [41, 42]) 42 = some false) :=
  C8_kill_processes_outcomes envDead [41, 42] 42 (by decide)

/-- C9, counterexample: with no `/dev/ttys*` device present, `run_lsof`
returns the empty string without ever invoking the tool, so `scan()`
succeeds (with an empty result) even though the lsof binary is missing —
refuting "fails if and only if the binary is missing". -/
theorem C9_counterexample_missing_binary_no_devices :
    envScanNoDev.lsofAvailable = false ∧ scan_ptys envScanNoDev = Except.ok [] := by
  exact ⟨rfl, rfl⟩

/-- C9 (amended): one `scan()` call fails iff at least one PTY device
path exists AND (the binary is missing OR the tool's stdout has a
malformed numeric field); and whenever the tool runs, its stdout is
parsed identically regardless of the tool's exit status. -/
theorem C9_scan_failure_characterization (env : ScanEnv) :
    ((scan_ptys env).isOk = false ↔
      ¬ env.ptyDevices = [] ∧
        (env.lsofAvailable = false ∨ (parse_lsof_output env.lsofStdout).isOk = false)) ∧
    (∀ e : Int, scan_ptys { env with lsofExit := e } = scan_ptys env) := by
  constructor
  · cases hdev : env.ptyDevices with
    | nil =>
      have hscan : (scan_ptys env).isOk = true := by
        unfold scan_ptys run_lsof
        rw [hdev]
        rfl
      rw [hscan]
      simp
    | cons a l =>
      cases hav : env.lsofAvailable with
      | false =>
        have hscan : (scan_ptys env).isOk = false := by
          unfold scan_ptys run_lsof
          rw [hdev, hav]
          rfl
        rw [hscan]
        simp
      | true =>
        have hscan : scan_ptys env = parse_lsof_output env.lsofStdout := by
          unfold scan_ptys run_lsof
          rw [hdev, hav]
          rfl
        rw [hscan]
        simp
  · intro e
    rfl

/-- C10: a snapshot whose command the tool did not report is never a
leak candidate at any threshold, never appears in `get_suspected_leaks`,
and every pid the daemon records in `auto_killed` belongs to a snapshot
whose command was reported. -/
theorem C10_no_command_never_killed (env : OSEnv) (procs : ProcMap)
    (proc : PTYProcess) (threshold akThreshold : Int) (n : Nat) (q : Int)
    (hcmd : proc.command = none) :
    is_leak_candidate env proc threshold = false ∧
    proc ∉ get_suspected_leaks env procs threshold ∧
    (q ∈ (buildCacheData env procs n akThreshold).auto_killed →
      ∃ p, p ∈ valuesOf procs ∧ p.pid = q ∧ ¬ p.command = none) := by
  have hcand : is_leak_candidate env proc threshold = false := by
    rw [is_leak_candidate, hcmd]
    rfl
  refine ⟨hcand, ?_, ?_⟩
  · intro hmem
    rw [get_suspected_leaks] at hmem
    have := (List.mem_filter.mp hmem).2
    rw [hcand] at this
    exact absurd this (by simp)
  · intro hq
    have hq' : q ∈ daemonAutoKilled env procs akThreshold := hq
    rw [daemonAutoKilled] at hq'
    by_cases hpos : akThreshold > 0
    · rw [if_pos hpos] at hq'
      rcases mem_autoKillFold env akThreshold _ [] q hq' with hempty | ⟨p, hp, hpid⟩
      · exact absurd hempty (by simp)
      · rw [get_suspected_leaks] at hp
        have hp' := List.mem_filter.mp hp
        exact ⟨p, hp'.1, hpid, leak_candidate_command env p 4 hp'.2⟩
    · rw [if_neg hpos] at hq'
      exact absurd hq' (by simp)

/-- C10 witness: a 30-PTY snapshot with no reported command is not a
candidate, not a suspected leak, and nothing in that scan's
`auto_killed` lacks a command. -/
theorem C10_no_command_never_killed_witness :
    is_leak_candidate envOpen noCmdProc 4 = false ∧
    noCmdProc ∉ get_suspected_leaks envOpen [(900, noCmdProc)] 4 ∧
    (900 ∈ (buildCacheData envOpen [(900, noCmdProc)] 1 4).auto_killed →
      ∃ p, p ∈ valuesOf [(900, noCmdProc)] ∧ p.pid = 900 ∧ ¬ p.command = none) :=
  C10_no_command_never_killed envOpen [(900, noCmdProc)] noCmdProc 4 4 1 900 rfl

end Honk
